import Mathlib

/-!
# MiniShell: the command-tree executor of `src/cmd.c`

A shallow embedding of `cmd.c`.  The shell is a sequential C program that talks
to the operating system; the embedding threads the state of the running process
(`Proc`) through every function and reads the result of each system call from an
`Oracle`, so that every theorem quantified over the oracle holds for every
behaviour of the operating system and of the launched programs.

* A C function that may call `exit` or `abort` returns an `Outcome`.
* `fork` is modelled from both sides: the parent continues in its own state, the
  child runs the code of its branch in a copy of that state and its termination
  is turned into the raw wait status that `waitpid` hands to the parent.
* C `int` values are `Int`; `level + 1` wraps at 32 bits (`int32`).
* `bool` is the C99 `_Bool` of `<stdbool.h>`: converting an `int` to it gives
  `0` for zero and `1` for every other value (`to_bool`).
-/

namespace MiniShell

/-! ## Constants and data model -/

/-- The constants that `cmd.c` takes from its headers `cmd.h` and `parser.h`,
which are not part of the source tree.  Every definition takes them as a
parameter `K`. -/
structure Consts where
  SHELL_EXIT : Int
  IO_REGULAR : Int
  IO_OUT_APPEND : Int
  IO_ERR_APPEND : Int
deriving DecidableEq, Repr

/-- A sample assignment of the header constants (pairwise distinct flag values
and a negative sentinel), used to evaluate the code at concrete inputs. -/
def hdr : Consts :=
  { SHELL_EXIT := -100, IO_REGULAR := 0, IO_OUT_APPEND := 1, IO_ERR_APPEND := 2 }

/-- File descriptor of standard input (`#define READ 0`). -/
def READ : Int := 0
/-- File descriptor of standard output (`#define WRITE 1`). -/
def WRITE : Int := 1
/-- File descriptor of standard error (`#define ERR 2`). -/
def ERR : Int := 2
/-- File descriptor reserved for valgrind (`#define VALGRIND 3`). -/
def VALGRIND : Int := 3

/-- The field `op` of `command_t`: the six node kinds the evaluator knows and
any other value of the enumeration. -/
inductive operator_t
  | OP_NONE
  | OP_SEQUENTIAL
  | OP_PARALLEL
  | OP_CONDITIONAL_NZERO
  | OP_CONDITIONAL_ZERO
  | OP_PIPE
  | OP_OTHER (tag : Nat)
deriving DecidableEq, Repr

/-- Modelled from the spec: the Word Resolver (`get_word`, `get_argv` of
`utils.h`) and the type `word_t` are not in `src/`.  A word is represented by
the string it resolves to, `none` being the absent word for which `get_word`
returns `NULL`.  The fields are the words `cmd.c` reads from
`simple_command_t`: `verb`, `params` (the first argument word), `argv` (the
result of `get_argv`), the three redirection targets and `io_flags`. -/
structure simple_command_t where
  verb : String
  params : Option String
  argv : List String
  in_ : Option String
  out : Option String
  err : Option String
  io_flags : Int
deriving DecidableEq, Repr

/-- A pointer to `command_t`: `NULL`, or a node with its operator, its (possibly
absent) simple command and its two children. -/
inductive command_t
  | NULL
  | node (op : operator_t) (scmd : Option simple_command_t) (cmd1 cmd2 : command_t)
deriving DecidableEq, Repr

/-! ## The process and the operating system -/

/-- The place of a system call: the process that makes it (`anc`, the fork
positions of its ancestors) and how many calls that process made before. -/
structure Pos where
  anc : List Nat
  clock : Nat
deriving DecidableEq, Repr

/-- The flag sets `cmd.c` passes to `open`: `O_RDONLY`,
`O_WRONLY | O_CREAT | O_TRUNC` and `O_WRONLY | O_CREAT | O_APPEND`. -/
inductive OpenFlags
  | O_RDONLY
  | O_TRUNC
  | O_APPEND
deriving DecidableEq, Repr

/-- The system and library calls a process makes, with their results. -/
inductive Event
  | opened (path : String) (flags : OpenFlags) (ret : Int)
  | dup2 (oldfd newfd ret : Int)
  | close (fd : Int)
  | chdir (path : String) (ret : Int)
  | setenv (name value : String) (ret : Int)
  | write (fd : Int) (text : String)
  | pipe (ret : Int)
  | fork (failed : Bool)
  | waitpid (status : Nat)
  | execvpe (command : String) (argv : List String)
deriving DecidableEq, Repr

/-- The answers of the operating system, one per place of a call.
`openFd`: the descriptor `open` returns, `none` when it fails;
`execStatus`: for an `execvpe` of the named command, `none` when the call
returns (failure), otherwise the raw wait status with which the launched
program terminates;
`killed`: for a `fork`, the raw wait status of the child when it is terminated
from outside before it finishes, `none` when it runs to its own end. -/
structure Oracle where
  openFd : Pos → Option Nat
  dup2Fails : Pos → Bool
  chdirFails : Pos → Bool
  setenvFails : Pos → Bool
  forkFails : Pos → Bool
  pipeFds : Pos → Option (Nat × Nat)
  execStatus : Pos → String → Option Nat
  killed : Pos → Option Nat

/-- The state of one process: where it is, its working directory (the argument
of the last successful `chdir`), its environment and the calls it has made. -/
structure Proc where
  pos : Pos
  cwd : String
  env : List (String × String)
  trace : List Event
deriving DecidableEq, Repr

/-- Record a call and advance the clock of the process. -/
def Proc.step (w : Proc) (e : Event) : Proc :=
  { w with pos := ⟨w.pos.anc, w.pos.clock + 1⟩, trace := w.trace ++ [e] }

/-- The state in which the child of a `fork` made at `w.pos` starts. -/
def Proc.child (w : Proc) : Proc :=
  { w with pos := ⟨w.pos.clock :: w.pos.anc, 0⟩, trace := [] }

/-- How a C function ends: it returns a value, or the process calls `exit`, or
the process calls `abort`. -/
inductive Outcome (α : Type)
  | returned (v : α) (w : Proc)
  | exited (code : Int) (w : Proc)
  | aborted (w : Proc)
deriving DecidableEq, Repr

/-- Sequencing: continue with `f` when the first part returned. -/
def Outcome.bind {α β : Type} (o : Outcome α) (f : α → Proc → Outcome β) : Outcome β :=
  match o with
  | .returned v w => f v w
  | .exited c w => .exited c w
  | .aborted w => .aborted w

/-- Conversion of an `int` to `_Bool`. -/
def to_bool (x : Int) : Int := if x = 0 then 0 else 1

/-- Two-complement wrap of a value to the range of a 32-bit `int`. -/
def int32 (x : Int) : Int := (x + 2147483648) % 4294967296 - 2147483648

/-- The macro `WIFEXITED` of `<sys/wait.h>`: `(status & 0x7f) == 0`. -/
def WIFEXITED (status : Nat) : Bool := status % 128 == 0

/-- The macro `WEXITSTATUS` of `<sys/wait.h>`: `(status & 0xff00) >> 8`. -/
def WEXITSTATUS (status : Nat) : Int := ((status / 256) % 256 : Nat)

/-- The raw wait status of a process that called `exit(code)`: the low eight
bits of `code`, shifted into the exit-status byte. -/
def W_EXITCODE (code : Int) : Nat := (code % 256).toNat * 256

/-- The raw wait status of a process that called `abort` (signal `SIGABRT`). -/
def W_ABORTED : Nat := 6

/-- The raw wait status of a process that ran the code of this program to the
end `o`; a branch that returns `v` calls `exit(v)`. -/
def wait_status (o : Outcome Int) : Nat :=
  match o with
  | .returned v _ => W_EXITCODE v
  | .exited c _ => W_EXITCODE c
  | .aborted _ => W_ABORTED

/-- The system call `open`: the descriptor, or `-1`. -/
def sys_open (O : Oracle) (path : String) (flags : OpenFlags) (w : Proc) : Int × Proc :=
  let r : Int := match O.openFd w.pos with
    | some n => (n : Int)
    | none => -1
  (r, w.step (.opened path flags r))

/-- The system call `dup2`: the new descriptor, or `-1`. -/
def sys_dup2 (O : Oracle) (oldfd newfd : Int) (w : Proc) : Int × Proc :=
  let r : Int := if O.dup2Fails w.pos then -1 else newfd
  (r, w.step (.dup2 oldfd newfd r))

/-- The system call `close`. -/
def sys_close (fd : Int) (w : Proc) : Proc := w.step (.close fd)

/-- The system call `chdir`: `0` and the new working directory, or `-1`. -/
def sys_chdir (O : Oracle) (path : String) (w : Proc) : Int × Proc :=
  if O.chdirFails w.pos then (-1, w.step (.chdir path (-1)))
  else (0, { w.step (.chdir path 0) with cwd := path })

/-- The library call `getenv`. -/
def getenv (w : Proc) (name : String) : Option String := w.env.lookup name

/-- The library call `setenv(name, value, 1)`: `0` and the overwritten
variable, or `-1`. -/
def sys_setenv (O : Oracle) (name value : String) (w : Proc) : Int × Proc :=
  if O.setenvFails w.pos then (-1, w.step (.setenv name value (-1)))
  else (0, { w.step (.setenv name value 0) with
             env := (name, value) :: w.env.filter (fun p => p.1 != name) })

/-- A write of `text` through the descriptor `fd` (`fprintf`, `perror`). -/
def sys_write (fd : Int) (text : String) (w : Proc) : Proc := w.step (.write fd text)

/-! ## Redirection setup -/

/-- The descriptors `fdIn`, `fdOut`, `fdErr`, `fdOutErr` that `redirect` and
`cd_wrapper` fill in; each starts as `-1`. -/
structure Fds where
  fdIn : Int
  fdOut : Int
  fdErr : Int
  fdOutErr : Int
deriving DecidableEq, Repr

/-- All four descriptors unset. -/
def Fds.unset : Fds := { fdIn := -1, fdOut := -1, fdErr := -1, fdOutErr := -1 }

/-- The tail of the test `fd == -1 || dup2(fd, t1) == -1 || ...`: the `dup2`
calls run left to right and stop at the first failure, which leads to
`close(fd); exit(-1)`. -/
def dup_all (O : Oracle) (fd : Int) : List Int → Proc → Outcome Int
  | [], w => .returned fd w
  | t :: ts, w =>
    let d := sys_dup2 O fd t w
    if d.1 = -1 then .exited (-1) (sys_close fd d.2) else dup_all O fd ts d.2

/-- The block that `redirect` and `cd_wrapper` repeat for each target:
`fd = open(path, flags); if (fd == -1 || dup2(fd, t) == -1 ...) { close(fd);
exit(-1); }`.  It returns the descriptor. -/
def open_dup (O : Oracle) (path : String) (flags : OpenFlags) (targets : List Int)
    (w : Proc) : Outcome Int :=
  let r := sys_open O path flags w
  if r.1 = -1 then .exited (-1) (sys_close r.1 r.2) else dup_all O r.1 targets r.2

/-- The block for the output target (lines 63-87 of `redirect`, 172-194 of
`cd_wrapper`): when the target is present it is opened in truncate mode if
`io_flags == IO_REGULAR`, in append mode if `io_flags == IO_OUT_APPEND`, and
not at all for any other value of `io_flags`.  `dups` are the descriptors the
new one is duplicated onto: `[WRITE]` in `redirect`, none in `cd_wrapper`. -/
def open_output (K : Consts) (O : Oracle) (s : simple_command_t) (stdoutFile : Option String)
    (dups : List Int) (fds : Fds) (w : Proc) : Outcome Fds :=
  match stdoutFile with
  | some f =>
    if s.io_flags = K.IO_REGULAR then
      (open_dup O f .O_TRUNC dups w).bind fun fd w1 => .returned { fds with fdOut := fd } w1
    else if s.io_flags = K.IO_OUT_APPEND then
      (open_dup O f .O_APPEND dups w).bind fun fd w1 => .returned { fds with fdOut := fd } w1
    else .returned fds w
  | none => .returned fds w

/-- The block for the error target (lines 91-115 of `redirect`, 198-220 of
`cd_wrapper`): when the target is present it is opened in truncate mode if
`io_flags == IO_REGULAR`, in append mode if `io_flags == IO_ERR_APPEND`, and
not at all for any other value of `io_flags`. -/
def open_error (K : Consts) (O : Oracle) (s : simple_command_t) (stderrFile : Option String)
    (dups : List Int) (fds : Fds) (w : Proc) : Outcome Fds :=
  match stderrFile with
  | some f =>
    if s.io_flags = K.IO_REGULAR then
      (open_dup O f .O_TRUNC dups w).bind fun fd w1 => .returned { fds with fdErr := fd } w1
    else if s.io_flags = K.IO_ERR_APPEND then
      (open_dup O f .O_APPEND dups w).bind fun fd w1 => .returned { fds with fdErr := fd } w1
    else .returned fds w
  | none => .returned fds w

/-- The block for one file that is both the output and the error target (lines
48-59 of `redirect`, 157-167 of `cd_wrapper`): opened in truncate mode, and
only if `io_flags == IO_REGULAR`. -/
def open_same (K : Consts) (O : Oracle) (s : simple_command_t) (file : String)
    (dups : List Int) (fds : Fds) (w : Proc) : Outcome Fds :=
  if s.io_flags = K.IO_REGULAR then
    (open_dup O file .O_TRUNC dups w).bind fun fd w1 => .returned { fds with fdOutErr := fd } w1
  else .returned fds w

/-- The output and error part that `redirect` (lines 47-116) and `cd_wrapper`
(lines 156-221) share: one descriptor when both targets are present and are
the same string, the output block followed by the error block otherwise. -/
def open_targets (K : Consts) (O : Oracle) (s : simple_command_t)
    (stdoutFile stderrFile : Option String) (dupsOut dupsErr : List Int) (fds : Fds)
    (w : Proc) : Outcome Fds :=
  let separate : Outcome Fds :=
    (open_output K O s stdoutFile dupsOut fds w).bind fun fds w =>
      open_error K O s stderrFile dupsErr fds w
  match stdoutFile, stderrFile with
  | some o, some e =>
    if o = e then open_same K O s o (dupsOut ++ dupsErr) fds w else separate
  | _, _ => separate

/-- The block for the input target (lines 33-44 of `redirect`). -/
def open_input (O : Oracle) (stdinFile : Option String) (fds : Fds) (w : Proc) : Outcome Fds :=
  match stdinFile with
  | some f =>
    (open_dup O f .O_RDONLY [READ] w).bind fun fd w1 => .returned { fds with fdIn := fd } w1
  | none => .returned fds w

/-- The function `redirect` (lines 29-117): the input target, then the output
and error targets, each new descriptor duplicated onto its standard stream. -/
def redirect (K : Consts) (O : Oracle) (s : simple_command_t)
    (stdinFile stdoutFile stderrFile : Option String) (fds : Fds) (w : Proc) : Outcome Fds :=
  (open_input O stdinFile fds w).bind fun fds w =>
    open_targets K O s stdoutFile stderrFile [WRITE] [ERR] fds w

/-! ## Internal commands -/

/-- The function `shell_cd` (lines 122-142).  Its `int retVal` starts as `-1`
and leaves through the return type `bool`. -/
def shell_cd (O : Oracle) (dir : Option String) (w : Proc) : Int × Proc :=
  let r : Int × Proc :=
    match dir with
    | none =>
      match getenv w "HOME" with
      | some homeEnv => sys_chdir O homeEnv w
      | none => (-1, w)
    | some path => sys_chdir O path w
  (to_bool r.1, r.2)

/-- The line `cd_wrapper` prints when the directory change failed. -/
def cd_error_line : String := "Error at changing directory\n"

/-- The first part of `cd_wrapper` (lines 151-221): open the redirection
targets as `redirect` does for output and error, without any `dup2`. -/
def cd_open_files (K : Consts) (O : Oracle) (s : simple_command_t) (w : Proc) : Outcome Fds :=
  open_targets K O s s.out s.err [] [] Fds.unset w

/-- The function `cd_wrapper` (lines 149-253): open the redirection targets,
call `shell_cd`, print the error line when `retVal == -1` (through
`fdopen(fdErr)` when `fdErr` was opened, to `stderr` otherwise), close what was
opened, and return `retVal` through the return type `bool`. -/
def cd_wrapper (K : Consts) (O : Oracle) (s : simple_command_t) (w : Proc) : Outcome Int :=
  (cd_open_files K O s w).bind fun fds w =>
    let r := shell_cd O s.params w
    let retVal : Int := r.1
    let w1 : Proc :=
      if retVal = -1 then
        if fds.fdErr ≠ -1 then sys_close fds.fdErr (sys_write fds.fdErr cd_error_line r.2)
        else sys_write ERR cd_error_line r.2
      else r.2
    let w2 := if fds.fdOut ≠ -1 then sys_close fds.fdOut w1 else w1
    let w3 := if fds.fdErr ≠ -1 then sys_close fds.fdErr w2 else w2
    let w4 := if fds.fdOutErr ≠ -1 then sys_close fds.fdOutErr w3 else w3
    .returned (to_bool retVal) w4

/-- The function `shell_exit` (lines 259-267). -/
def shell_exit (K : Consts) (w : Proc) : Outcome Int :=
  .returned K.SHELL_EXIT
    (sys_close VALGRIND (sys_close ERR (sys_close WRITE (sys_close READ w))))

/-- The function `internal_command` (lines 284-293). -/
def internal_command (K : Consts) (O : Oracle) (s : simple_command_t) (command : String)
    (w : Proc) : Outcome Int :=
  if command = "cd" then cd_wrapper K O s w else shell_exit K w

/-! ## Environment assignment -/

/-- Modelled from the spec: the parts of the word `s->verb` (`word_t`, of
`parser.h`) are not in `src/`; the variable name is the substring of the
command name before the assignment marker. -/
def assignment_name (command : String) : String :=
  String.mk (command.data.takeWhile fun c => c != '=')

/-- Modelled from the spec: the value is the substring of the command name
after the assignment marker, as resolved by the Word Resolver. -/
def assignment_value (command : String) : String :=
  String.mk ((command.data.dropWhile fun c => c != '=').drop 1)

/-- The function `environment_assignment` (lines 299-312): its result is the
return value of `setenv`. -/
def environment_assignment (O : Oracle) (s : simple_command_t) (w : Proc) : Outcome Int :=
  let name := assignment_name s.verb
  let value := assignment_value s.verb
  let r := sys_setenv O name value w
  .returned r.1 r.2

/-! ## External commands -/

/-- The text `perror` gets after a failed `fork`. -/
def fork_error : String := "Fork error\n"

/-- The text of the diagnostic for a program that could not be executed. -/
def exec_error (command : String) : String :=
  "Execution failed for '" ++ command ++ "'\n"

/-- The child branch of `external_command` (lines 346-382): the raw wait
status with which the child process ends, and its last state.  `redirect` may
`exit(-1)`; then `execvpe` either replaces the process by the program, which
ends with the status the oracle gives, or returns `-1`, after which the child
closes its descriptors, prints its diagnostic and calls `abort`. -/
def external_child (K : Consts) (O : Oracle) (s : simple_command_t) (command : String)
    (w : Proc) : Nat × Proc :=
  match redirect K O s s.in_ s.out s.err Fds.unset w with
  | .returned fds w1 =>
    let w2 := w1.step (.execvpe command s.argv)
    match O.execStatus w1.pos command with
    | some status => (status, w2)
    | none =>
      let w3 := if fds.fdIn ≠ -1 then sys_close fds.fdIn w2 else w2
      let w4 := if fds.fdOut ≠ -1 then sys_close fds.fdOut w3 else w3
      let w5 := if fds.fdErr ≠ -1 then sys_close fds.fdErr w4 else w4
      let w6 := if fds.fdOutErr ≠ -1 then sys_close fds.fdOutErr w5 else w5
      (W_ABORTED, sys_write ERR (exec_error command) w6)
  | .exited code w1 => (W_EXITCODE code, w1)
  | .aborted w1 => (W_ABORTED, w1)

/-- The raw status `waitpid` stores for the child forked at `p`: the one of its
own end, unless the child was terminated from outside. -/
def child_status (O : Oracle) (p : Pos) (own : Nat) : Nat :=
  match O.killed p with
  | some status => status
  | none => own

/-- The function `external_command` (lines 318-386), in the parent: a failed
`fork` aborts the shell; otherwise wait for the child and return its exit
status when it exited, `1` when it did not. -/
def external_command (K : Consts) (O : Oracle) (s : simple_command_t) (command : String)
    (w : Proc) : Outcome Int :=
  let failed := O.forkFails w.pos
  let w1 := w.step (.fork failed)
  if failed then .aborted (sys_write ERR fork_error w1)
  else
    let status := child_status O w.pos (external_child K O s command w.child).1
    let w2 := w1.step (.waitpid status)
    if WIFEXITED status then .returned (WEXITSTATUS status) w2 else .returned 1 w2

/-- The function `parse_simple` (lines 392-410). -/
def parse_simple (K : Consts) (O : Oracle) (s : Option simple_command_t) (level : Int)
    (w : Proc) : Outcome Int :=
  match s with
  | none => .returned K.SHELL_EXIT w
  | some s =>
    if level < 0 then .returned K.SHELL_EXIT w
    else
      let command := s.verb
      if command = "cd" ∨ command = "exit" ∨ command = "quit" then
        internal_command K O s command w
      else if '=' ∈ command.data then environment_assignment O s w
      else external_command K O s command w

/-! ## Compound commands -/

/-- The function `run_in_parallel` (lines 415-464).  `ev1` and `ev2` stand for
`parse_command(cmd1, ...)` and `parse_command(cmd2, ...)`.  The child of the
first `fork` runs `cmd2`, the child of the second runs `cmd1`; each calls
`exit` with the result.  The value leaves through the return type `bool`. -/
def run_in_parallel (O : Oracle) (ev1 ev2 : Int → Proc → Outcome Int) (level : Int)
    (w : Proc) : Outcome Int :=
  let failed1 := O.forkFails w.pos
  let w1 := w.step (.fork failed1)
  if failed1 then .aborted (sys_write ERR fork_error w1)
  else
    let status1 := child_status O w.pos (wait_status (ev2 level w.child))
    let failed2 := O.forkFails w1.pos
    let w2 := w1.step (.fork failed2)
    if failed2 then .aborted (sys_write ERR fork_error w2)
    else
      let status2 := child_status O w1.pos (wait_status (ev1 level w1.child))
      let w3 := (w2.step (.waitpid status1)).step (.waitpid status2)
      if WIFEXITED status1 && WIFEXITED status2 then
        .returned (to_bool (Int.lor (WEXITSTATUS status1) (WEXITSTATUS status2))) w3
      else .returned (to_bool 1) w3

/-- The text `perror` gets after a failed `pipe`. -/
def pipe_error : String := "Error at creating the pipe\n"

/-- A child branch of `run_on_pipe`: close the end it does not use, `dup2` the
other one onto `target` (`exit(-1)` when that fails), run its command, close
the end and `exit` with the result. -/
def pipe_child (O : Oracle) (ev : Int → Proc → Outcome Int) (level : Int)
    (unused used target : Int) (w : Proc) : Outcome Int :=
  let w1 := sys_close unused w
  let d := sys_dup2 O used target w1
  if d.1 = -1 then .exited (-1) (sys_close used d.2)
  else (ev level d.2).bind fun retValue w2 => .exited retValue (sys_close used w2)

/-- The function `run_on_pipe` (lines 469-557).  The child of the first `fork`
runs `cmd1` writing into the pipe, the child of the second runs `cmd2` reading
from it; the parent returns the status of the second, through the return type
`bool`. -/
def run_on_pipe (O : Oracle) (ev1 ev2 : Int → Proc → Outcome Int) (level : Int)
    (w : Proc) : Outcome Int :=
  match O.pipeFds w.pos with
  | none => .aborted (sys_write ERR pipe_error (w.step (.pipe (-1))))
  | some currentPipe =>
    let w0 := w.step (.pipe 0)
    let failed1 := O.forkFails w0.pos
    let w1 := w0.step (.fork failed1)
    if failed1 then .aborted (sys_write ERR fork_error w1)
    else
      let status1 := child_status O w0.pos
        (wait_status (pipe_child O ev1 level currentPipe.1 currentPipe.2 WRITE w0.child))
      let failed2 := O.forkFails w1.pos
      let w2 := w1.step (.fork failed2)
      if failed2 then .aborted (sys_write ERR fork_error w2)
      else
        let status2 := child_status O w1.pos
          (wait_status (pipe_child O ev2 level currentPipe.2 currentPipe.1 READ w1.child))
        let w3 := sys_close currentPipe.2 (sys_close currentPipe.1 w2)
        let w4 := (w3.step (.waitpid status1)).step (.waitpid status2)
        if WIFEXITED status2 then .returned (to_bool (WEXITSTATUS status2)) w4
        else .returned (to_bool 1) w4

/-- The function `parse_command` (lines 563-607). -/
def parse_command (K : Consts) (O : Oracle) : command_t → Int → Proc → Outcome Int
  | .NULL, _, w => .returned K.SHELL_EXIT w
  | .node op scmd cmd1 cmd2, level, w =>
    if level < 0 then .returned K.SHELL_EXIT w
    else
      match op with
      | .OP_NONE => parse_simple K O scmd (int32 (level + 1)) w
      | .OP_SEQUENTIAL =>
        (parse_command K O cmd1 (int32 (level + 1)) w).bind fun r1 w1 =>
          (parse_command K O cmd2 (int32 (level + 1)) w1).bind fun r2 w2 =>
            .returned (Int.lor r1 r2) w2
      | .OP_PARALLEL =>
        run_in_parallel O (parse_command K O cmd1) (parse_command K O cmd2)
          (int32 (level + 1)) w
      | .OP_CONDITIONAL_NZERO =>
        (parse_command K O cmd1 (int32 (level + 1)) w).bind fun r1 w1 =>
          if r1 ≠ 0 then parse_command K O cmd2 (int32 (level + 1)) w1
          else .returned r1 w1
      | .OP_CONDITIONAL_ZERO =>
        (parse_command K O cmd1 (int32 (level + 1)) w).bind fun r1 w1 =>
          if r1 = 0 then parse_command K O cmd2 (int32 (level + 1)) w1
          else .returned r1 w1
      | .OP_PIPE =>
        run_on_pipe O (parse_command K O cmd1) (parse_command K O cmd2)
          (int32 (level + 1)) w
      | .OP_OTHER _ => .returned K.SHELL_EXIT w

/-! ## Observations and sample inputs -/

/-- The value a function returned, `none` when the process ended instead. -/
def Outcome.result {α : Type} (o : Outcome α) : Option α :=
  match o with
  | .returned v _ => some v
  | .exited _ _ => none
  | .aborted _ => none

/-- The state of the process when the function ended. -/
def Outcome.state {α : Type} (o : Outcome α) : Proc :=
  match o with
  | .returned _ w => w
  | .exited _ w => w
  | .aborted w => w

/-- The `chdir` calls of a trace. -/
def chdir_calls (t : List Event) : List Event :=
  t.filter fun e => match e with
    | .chdir _ _ => true
    | _ => false

/-- The writes of a trace. -/
def write_calls (t : List Event) : List Event :=
  t.filter fun e => match e with
    | .write _ _ => true
    | _ => false

/-- A sample operating system: every call succeeds, `open` returns descriptor
`5`, `pipe` the descriptors `3` and `4`, no child is terminated from outside,
and the programs `true`, `false`, `two` and `four` exit with the codes
0, 1, 2 and 4; no other program can be executed. -/
def sample_os : Oracle :=
  { openFd := fun _ => some 5
    dup2Fails := fun _ => false
    chdirFails := fun _ => false
    setenvFails := fun _ => false
    forkFails := fun _ => false
    pipeFds := fun _ => some (3, 4)
    execStatus := fun _ c => [("true", 0), ("false", 256), ("two", 512), ("four", 1024)].lookup c
    killed := fun _ => none }

/-- The sample operating system with every `chdir` failing. -/
def no_chdir_os : Oracle := { sample_os with chdirFails := fun _ => true }

/-- The sample operating system with every `open` failing. -/
def no_open_os : Oracle := { sample_os with openFd := fun _ => none }

/-- The sample operating system with every child ended from outside by
signal 9 before it finishes. -/
def killing_os : Oracle := { sample_os with killed := fun _ => some 9 }

/-- A shell process that has made no call yet, in `/`, with an empty
environment (so `HOME` is unset). -/
def start : Proc := { pos := ⟨[], 0⟩, cwd := "/", env := [], trace := [] }

/-- A simple command without argument words and redirections. -/
def plain (verb : String) : simple_command_t :=
  { verb := verb, params := none, argv := [verb], in_ := none, out := none, err := none,
    io_flags := hdr.IO_REGULAR }

/-- The tree of one simple command. -/
def leaf (s : simple_command_t) : command_t := .node .OP_NONE (some s) .NULL .NULL

/-- The tree of a compound command. -/
def tree (op : operator_t) (cmd1 cmd2 : command_t) : command_t := .node op none cmd1 cmd2

/-! ## Predicates of the statements -/

/-- The second state belongs to the same process as the first, with the same
working directory and environment, and its trace has the same `chdir` calls
and the same writes. -/
def kept (w w2 : Proc) : Prop :=
  w2.pos.anc = w.pos.anc ∧ w2.cwd = w.cwd ∧ w2.env = w.env ∧
    chdir_calls w2.trace = chdir_calls w.trace ∧ write_calls w2.trace = write_calls w.trace

/-- A status that is `-1` or in the range `0 .. 255`. -/
def status_ok (v : Int) : Prop := v = -1 ∨ (0 ≤ v ∧ v ≤ 255)

/-- The number of nested `parse_command` / `parse_simple` calls a tree causes:
each call passes `level + 1` on. -/
def depth : command_t → Nat
  | .NULL => 0
  | .node .OP_NONE _ _ _ => 1
  | .node _ _ cmd1 cmd2 => 1 + max (depth cmd1) (depth cmd2)

/-- A tree without absent node and absent simple command, with only the six
known node kinds, and without a simple command named `exit` or `quit`. -/
def well_formed : command_t → Bool
  | .NULL => false
  | .node .OP_NONE scmd _ _ =>
    match scmd with
    | some s => s.verb != "exit" && s.verb != "quit"
    | none => false
  | .node (.OP_OTHER _) _ _ _ => false
  | .node _ _ cmd1 cmd2 => well_formed cmd1 && well_formed cmd2

/-- No `fork`, `pipe` or `open` call that the process of `w` makes itself
fails (the calls of its children may). -/
def own_calls_succeed (O : Oracle) (w : Proc) : Prop :=
  ∀ n, O.forkFails ⟨w.pos.anc, n⟩ = false ∧ (O.pipeFds ⟨w.pos.anc, n⟩).isSome ∧
    (O.openFd ⟨w.pos.anc, n⟩).isSome

/-- The function returned or the process called `exit(-1)`; it did not call
`abort`. -/
def ends_ok {α : Type} (o : Outcome α) : Prop :=
  match o with
  | .returned _ _ => True
  | .exited c _ => c = -1
  | .aborted _ => False

/-! ## Lemmas -/

theorem to_bool_ne_neg_one (x : Int) : to_bool x ≠ -1 := by
  unfold to_bool; split_ifs <;> decide

theorem to_bool_cases (x : Int) : to_bool x = 0 ∨ to_bool x = 1 := by
  unfold to_bool; split_ifs <;> simp

theorem kept_refl (w : Proc) : kept w w := ⟨rfl, rfl, rfl, rfl, rfl⟩

theorem kept_trans {a b c : Proc} (h1 : kept a b) (h2 : kept b c) : kept a c := by
  obtain ⟨p1, p2, p3, p4, p5⟩ := h1
  obtain ⟨q1, q2, q3, q4, q5⟩ := h2
  exact ⟨q1.trans p1, q2.trans p2, q3.trans p3, q4.trans p4, q5.trans p5⟩

theorem kept_open (O : Oracle) (path : String) (flags : OpenFlags) (w : Proc) :
    kept w (sys_open O path flags w).2 := by
  simp [kept, sys_open, Proc.step, chdir_calls, write_calls]

theorem kept_dup2 (O : Oracle) (a b : Int) (w : Proc) : kept w (sys_dup2 O a b w).2 := by
  simp [kept, sys_dup2, Proc.step, chdir_calls, write_calls]

theorem kept_close (fd : Int) (w : Proc) : kept w (sys_close fd w) := by
  simp [kept, sys_close, Proc.step, chdir_calls, write_calls]

theorem kept_bind {α β : Type} (w : Proc) (o : Outcome α) (f : α → Proc → Outcome β)
    (h1 : kept w o.state) (h2 : ∀ v w1, kept w w1 → kept w (f v w1).state) :
    kept w (o.bind f).state := by
  cases o with
  | returned v w1 => exact h2 v w1 h1
  | exited c w1 => exact h1
  | aborted w1 => exact h1

theorem kept_dup_all (O : Oracle) (fd : Int) (ts : List Int) (w : Proc) :
    kept w (dup_all O fd ts w).state := by
  induction ts generalizing w with
  | nil => exact kept_refl w
  | cons t ts ih =>
    simp only [dup_all]
    split_ifs
    · exact kept_trans (kept_dup2 O fd t w) (kept_close _ _)
    · exact kept_trans (kept_dup2 O fd t w) (ih _)

theorem kept_open_dup (O : Oracle) (path : String) (flags : OpenFlags) (ts : List Int)
    (w : Proc) : kept w (open_dup O path flags ts w).state := by
  simp only [open_dup]
  split_ifs
  · exact kept_trans (kept_open O path flags w) (kept_close _ _)
  · exact kept_trans (kept_open O path flags w) (kept_dup_all _ _ _ _)

theorem kept_open_dup_bind (O : Oracle) (path : String) (flags : OpenFlags) (ts : List Int)
    (w0 w : Proc) (g : Int → Fds) (h : kept w0 w) :
    kept w0 ((open_dup O path flags ts w).bind fun fd w1 => .returned (g fd) w1).state := by
  apply kept_bind
  · exact kept_trans h (kept_open_dup _ _ _ _ _)
  · intro v w1 h1; exact h1

theorem kept_open_output (K : Consts) (O : Oracle) (s : simple_command_t)
    (f : Option String) (dups : List Int) (fds : Fds) (w0 w : Proc) (h : kept w0 w) :
    kept w0 (open_output K O s f dups fds w).state := by
  unfold open_output
  split
  · split_ifs
    · exact kept_open_dup_bind _ _ _ _ _ _ _ h
    · exact kept_open_dup_bind _ _ _ _ _ _ _ h
    · exact h
  · exact h

theorem kept_open_error (K : Consts) (O : Oracle) (s : simple_command_t)
    (f : Option String) (dups : List Int) (fds : Fds) (w0 w : Proc) (h : kept w0 w) :
    kept w0 (open_error K O s f dups fds w).state := by
  unfold open_error
  split
  · split_ifs
    · exact kept_open_dup_bind _ _ _ _ _ _ _ h
    · exact kept_open_dup_bind _ _ _ _ _ _ _ h
    · exact h
  · exact h

theorem kept_open_same (K : Consts) (O : Oracle) (s : simple_command_t)
    (f : String) (dups : List Int) (fds : Fds) (w0 w : Proc) (h : kept w0 w) :
    kept w0 (open_same K O s f dups fds w).state := by
  unfold open_same
  split_ifs
  · exact kept_open_dup_bind _ _ _ _ _ _ _ h
  · exact h

theorem kept_open_targets (K : Consts) (O : Oracle) (s : simple_command_t)
    (f g : Option String) (d1 d2 : List Int) (fds : Fds) (w0 w : Proc) (h : kept w0 w) :
    kept w0 (open_targets K O s f g d1 d2 fds w).state := by
  have sep : kept w0 ((open_output K O s f d1 fds w).bind fun fds w =>
      open_error K O s g d2 fds w).state :=
    kept_bind _ _ _ (kept_open_output _ _ _ _ _ _ _ _ h)
      (fun v w1 h1 => kept_open_error _ _ _ _ _ _ _ _ h1)
  unfold open_targets
  split
  · split_ifs
    · exact kept_open_same _ _ _ _ _ _ _ _ h
    · exact sep
  · exact sep

theorem kept_cd_open_files (K : Consts) (O : Oracle) (s : simple_command_t) (w : Proc) :
    kept w (cd_open_files K O s w).state :=
  kept_open_targets _ _ _ _ _ _ _ _ _ _ (kept_refl w)

theorem run_in_parallel_bool (O : Oracle) (ev1 ev2 : Int → Proc → Outcome Int) (level : Int)
    (w : Proc) (v : Int) (w1 : Proc) (h : run_in_parallel O ev1 ev2 level w = .returned v w1) :
    v = 0 ∨ v = 1 := by
  unfold run_in_parallel at h
  simp only [] at h
  split_ifs at h <;> injection h with hv _ <;> rw [← hv] <;> exact to_bool_cases _

theorem run_on_pipe_bool (O : Oracle) (ev1 ev2 : Int → Proc → Outcome Int) (level : Int)
    (w : Proc) (v : Int) (w1 : Proc) (h : run_on_pipe O ev1 ev2 level w = .returned v w1) :
    v = 0 ∨ v = 1 := by
  unfold run_on_pipe at h
  split at h
  · cases h
  · simp only [] at h
    split_ifs at h <;> injection h with hv _ <;> rw [← hv] <;> exact to_bool_cases _

theorem kept_shell_cd_writes (O : Oracle) (dir : Option String) (w : Proc) :
    write_calls (shell_cd O dir w).2.trace = write_calls w.trace := by
  unfold shell_cd
  simp only []
  split
  · split
    · unfold sys_chdir; split_ifs <;> simp [Proc.step, write_calls]
    · rfl
  · unfold sys_chdir; split_ifs <;> simp [Proc.step, write_calls]

theorem shell_cd_bool (O : Oracle) (dir : Option String) (w : Proc) :
    (shell_cd O dir w).1 = 0 ∨ (shell_cd O dir w).1 = 1 := to_bool_cases _

theorem write_calls_close (fd : Int) (w : Proc) :
    write_calls (sys_close fd w).trace = write_calls w.trace := (kept_close fd w).2.2.2.2

theorem cd_wrapper_no_write (K : Consts) (O : Oracle) (s : simple_command_t) (w : Proc) :
    write_calls (cd_wrapper K O s w).state.trace = write_calls w.trace := by
  have h0 := (kept_cd_open_files K O s w).2.2.2.2
  unfold cd_wrapper
  cases hc : cd_open_files K O s w with
  | returned fds w1 =>
    rw [hc] at h0
    have hne : (shell_cd O s.params w1).1 ≠ -1 := to_bool_ne_neg_one _
    simp only [Outcome.bind, Outcome.state, hne, if_false] at h0 ⊢
    split_ifs <;> simp only [write_calls_close, kept_shell_cd_writes, h0]
  | exited c w1 => rw [hc] at h0; exact h0
  | aborted w1 => rw [hc] at h0; exact h0

theorem lor_neg_one_left (b : Int) : Int.lor (-1) b = -1 := by
  cases b with
  | ofNat n =>
    show Int.lor (Int.negSucc 0) (Int.ofNat n) = _
    simp [Int.lor, Nat.ldiff, Nat.bitwise_zero_left]
  | negSucc n =>
    show Int.lor (Int.negSucc 0) (Int.negSucc n) = _
    simp [Int.lor]

theorem lor_neg_one_right (a : Int) : Int.lor a (-1) = -1 := by
  cases a with
  | ofNat n =>
    show Int.lor (Int.ofNat n) (Int.negSucc 0) = _
    simp [Int.lor, Nat.ldiff, Nat.bitwise_zero_left]
  | negSucc n =>
    show Int.lor (Int.negSucc n) (Int.negSucc 0) = _
    simp [Int.lor]

theorem lor_byte (a b : Int) (ha : 0 ≤ a ∧ a ≤ 255) (hb : 0 ≤ b ∧ b ≤ 255) :
    0 ≤ Int.lor a b ∧ Int.lor a b ≤ 255 := by
  obtain ⟨m, rfl⟩ := Int.eq_ofNat_of_zero_le ha.1
  obtain ⟨n, rfl⟩ := Int.eq_ofNat_of_zero_le hb.1
  have hm : m < 2 ^ 8 := by omega
  have hn : n < 2 ^ 8 := by omega
  have := Nat.or_lt_two_pow hm hn
  show 0 ≤ ((m ||| n : Nat) : Int) ∧ ((m ||| n : Nat) : Int) ≤ 255
  omega

theorem status_ok_lor (a b : Int) (ha : status_ok a) (hb : status_ok b) :
    status_ok (Int.lor a b) := by
  rcases ha with rfl | ha
  · left; exact lor_neg_one_left b
  · rcases hb with rfl | hb
    · left; exact lor_neg_one_right a
    · right; exact lor_byte a b ha hb

theorem status_ok_bool (v : Int) (h : v = 0 ∨ v = 1) : status_ok v := by
  rcases h with rfl | rfl <;> right <;> decide

theorem status_ok_exit (status : Nat) : status_ok (WEXITSTATUS status) := by
  right; unfold WEXITSTATUS; omega

theorem int32_succ (level : Int) (h0 : 0 ≤ level) (h1 : level < 2147483647) :
    int32 (level + 1) = level + 1 := by
  unfold int32; omega

theorem anc_step (w : Proc) (e : Event) : (w.step e).pos.anc = w.pos.anc := rfl

theorem anc_chdir (O : Oracle) (p : String) (w : Proc) :
    (sys_chdir O p w).2.pos.anc = w.pos.anc := by
  unfold sys_chdir; split_ifs <;> rfl

theorem anc_shell_cd (O : Oracle) (dir : Option String) (w : Proc) :
    (shell_cd O dir w).2.pos.anc = w.pos.anc := by
  unfold shell_cd
  simp only []
  split
  · split
    · exact anc_chdir _ _ _
    · rfl
  · exact anc_chdir _ _ _

theorem open_dup_nil_returns (O : Oracle) (path : String) (flags : OpenFlags) (w : Proc)
    (h : (O.openFd w.pos).isSome) :
    ∃ fd, open_dup O path flags [] w = .returned fd (sys_open O path flags w).2 := by
  obtain ⟨n, hn⟩ := Option.isSome_iff_exists.mp h
  have hne : (sys_open O path flags w).1 ≠ -1 := by
    simp only [sys_open, hn]; omega
  exact ⟨(sys_open O path flags w).1, by simp only [open_dup, hne, if_false, dup_all]⟩

theorem open_dup_nil_bind_returns (O : Oracle) (path : String) (flags : OpenFlags) (w : Proc)
    (g : Int → Fds) (h : (O.openFd w.pos).isSome) :
    ∃ fds w1, ((open_dup O path flags [] w).bind fun fd w1 => .returned (g fd) w1) =
      .returned fds w1 := by
  obtain ⟨fd, hfd⟩ := open_dup_nil_returns O path flags w h
  exact ⟨_, _, by rw [hfd]; rfl⟩

theorem open_output_returns (K : Consts) (O : Oracle) (s : simple_command_t)
    (f : Option String) (fds : Fds) (w : Proc) (h : (O.openFd w.pos).isSome) :
    ∃ fds1 w1, open_output K O s f [] fds w = .returned fds1 w1 := by
  unfold open_output
  split
  · split_ifs
    · exact open_dup_nil_bind_returns _ _ _ _ _ h
    · exact open_dup_nil_bind_returns _ _ _ _ _ h
    · exact ⟨_, _, rfl⟩
  · exact ⟨_, _, rfl⟩

theorem open_error_returns (K : Consts) (O : Oracle) (s : simple_command_t)
    (f : Option String) (fds : Fds) (w : Proc) (h : (O.openFd w.pos).isSome) :
    ∃ fds1 w1, open_error K O s f [] fds w = .returned fds1 w1 := by
  unfold open_error
  split
  · split_ifs
    · exact open_dup_nil_bind_returns _ _ _ _ _ h
    · exact open_dup_nil_bind_returns _ _ _ _ _ h
    · exact ⟨_, _, rfl⟩
  · exact ⟨_, _, rfl⟩

theorem open_same_returns (K : Consts) (O : Oracle) (s : simple_command_t)
    (f : String) (fds : Fds) (w : Proc) (h : (O.openFd w.pos).isSome) :
    ∃ fds1 w1, open_same K O s f [] fds w = .returned fds1 w1 := by
  unfold open_same
  split_ifs
  · exact open_dup_nil_bind_returns _ _ _ _ _ h
  · exact ⟨_, _, rfl⟩

theorem cd_open_files_returns (K : Consts) (O : Oracle) (s : simple_command_t) (w : Proc)
    (h : ∀ n, (O.openFd ⟨w.pos.anc, n⟩).isSome) :
    ∃ fds w1, cd_open_files K O s w = .returned fds w1 := by
  have sep : ∃ fds w1, ((open_output K O s s.out [] Fds.unset w).bind fun fds w =>
      open_error K O s s.err [] fds w) = .returned fds w1 := by
    obtain ⟨fds1, w1, h1⟩ := open_output_returns K O s s.out Fds.unset w (h w.pos.clock)
    have hk : kept w w1 := by
      have := kept_open_output K O s s.out [] Fds.unset w w (kept_refl w)
      rw [h1] at this; exact this
    have h2 : (O.openFd w1.pos).isSome := by
      have := h w1.pos.clock
      rw [← hk.1] at this; exact this
    obtain ⟨fds2, w2, h3⟩ := open_error_returns K O s s.err fds1 w1 h2
    exact ⟨fds2, w2, by rw [h1]; exact h3⟩
  unfold cd_open_files open_targets
  simp only [List.append_nil]
  split
  · split_ifs
    · exact open_same_returns _ _ _ _ _ _ (h w.pos.clock)
    · exact sep
  · exact sep

theorem anc_close_if (c : Prop) [Decidable c] (fd : Int) (w : Proc) :
    (if c then sys_close fd w else w).pos.anc = w.pos.anc := by
  split_ifs <;> rfl

theorem cd_wrapper_returns (K : Consts) (O : Oracle) (s : simple_command_t) (w : Proc)
    (h : ∀ n, (O.openFd ⟨w.pos.anc, n⟩).isSome) :
    ∃ v w1, cd_wrapper K O s w = .returned v w1 ∧ (v = 0 ∨ v = 1) ∧
      w1.pos.anc = w.pos.anc := by
  obtain ⟨fds, w1, h1⟩ := cd_open_files_returns K O s w h
  have hk : kept w w1 := by
    have := kept_cd_open_files K O s w
    rw [h1] at this; exact this
  have hne : (shell_cd O s.params w1).1 ≠ -1 := to_bool_ne_neg_one _
  refine ⟨_, _, by simp only [cd_wrapper, h1, Outcome.bind, hne, if_false]; rfl,
    to_bool_cases _, ?_⟩
  rw [anc_close_if, anc_close_if, anc_close_if, anc_shell_cd]
  exact hk.1

theorem environment_assignment_returns (O : Oracle) (s : simple_command_t) (w : Proc) :
    ∃ v w1, environment_assignment O s w = .returned v w1 ∧ (v = -1 ∨ v = 0) ∧
      w1.pos.anc = w.pos.anc := by
  unfold environment_assignment sys_setenv
  simp only []
  split_ifs
  · exact ⟨_, _, rfl, Or.inl rfl, rfl⟩
  · exact ⟨_, _, rfl, Or.inr rfl, rfl⟩

theorem external_command_returns (K : Consts) (O : Oracle) (s : simple_command_t)
    (command : String) (w : Proc) (h : O.forkFails w.pos = false) :
    ∃ v w1, external_command K O s command w = .returned v w1 ∧ (0 ≤ v ∧ v ≤ 255) ∧
      w1.pos.anc = w.pos.anc := by
  unfold external_command
  simp only [h, Bool.false_eq_true, if_false]
  split_ifs
  · refine ⟨_, _, rfl, ?_, rfl⟩
    unfold WEXITSTATUS; omega
  · exact ⟨_, _, rfl, by decide, rfl⟩

theorem run_in_parallel_returns (O : Oracle) (ev1 ev2 : Int → Proc → Outcome Int)
    (level : Int) (w : Proc) (h : ∀ n, O.forkFails ⟨w.pos.anc, n⟩ = false) :
    ∃ v w1, run_in_parallel O ev1 ev2 level w = .returned v w1 ∧ (v = 0 ∨ v = 1) ∧
      w1.pos.anc = w.pos.anc := by
  have h1 : O.forkFails w.pos = false := h w.pos.clock
  have h2 : O.forkFails (w.step (.fork false)).pos = false := h (w.pos.clock + 1)
  unfold run_in_parallel
  simp only [h1, h2, Bool.false_eq_true, if_false]
  split_ifs
  · exact ⟨_, _, rfl, to_bool_cases _, rfl⟩
  · exact ⟨_, _, rfl, to_bool_cases _, rfl⟩

theorem run_on_pipe_returns (O : Oracle) (ev1 ev2 : Int → Proc → Outcome Int)
    (level : Int) (w : Proc) (h : ∀ n, O.forkFails ⟨w.pos.anc, n⟩ = false)
    (hp : (O.pipeFds w.pos).isSome) :
    ∃ v w1, run_on_pipe O ev1 ev2 level w = .returned v w1 ∧ (v = 0 ∨ v = 1) ∧
      w1.pos.anc = w.pos.anc := by
  obtain ⟨fds, hfds⟩ := Option.isSome_iff_exists.mp hp
  have h1 : O.forkFails (w.step (.pipe 0)).pos = false := h (w.pos.clock + 1)
  have h2 : O.forkFails ((w.step (.pipe 0)).step (.fork false)).pos = false :=
    h (w.pos.clock + 1 + 1)
  unfold run_on_pipe
  simp only [hfds, h1, h2, Bool.false_eq_true, if_false]
  split_ifs
  · exact ⟨_, _, rfl, to_bool_cases _, rfl⟩
  · exact ⟨_, _, rfl, to_bool_cases _, rfl⟩

theorem own_calls_succeed_of_anc (O : Oracle) (w w1 : Proc) (h : own_calls_succeed O w)
    (ha : w1.pos.anc = w.pos.anc) : own_calls_succeed O w1 := by
  intro n; rw [ha]; exact h n

theorem parse_simple_returns (K : Consts) (O : Oracle) (s : simple_command_t) (level : Int)
    (w : Proc) (hl : 0 ≤ level) (hv : s.verb ≠ "exit" ∧ s.verb ≠ "quit")
    (h : own_calls_succeed O w) :
    ∃ v w1, parse_simple K O (some s) level w = .returned v w1 ∧ status_ok v ∧
      w1.pos.anc = w.pos.anc := by
  have hl0 : ¬ level < 0 := not_lt.mpr hl
  simp only [parse_simple, hl0, if_false, hv.1, hv.2, or_false]
  by_cases hcd : s.verb = "cd"
  · simp only [hcd, if_true, internal_command]
    obtain ⟨v, w1, e, hv1, ha⟩ := cd_wrapper_returns K O s w (fun n => (h n).2.2)
    exact ⟨v, w1, e, status_ok_bool v hv1, ha⟩
  · simp only [hcd, if_false]
    split_ifs
    · obtain ⟨v, w1, e, hv1, ha⟩ := environment_assignment_returns O s w
      refine ⟨v, w1, e, ?_, ha⟩
      rcases hv1 with rfl | rfl
      · left; rfl
      · right; decide
    · obtain ⟨v, w1, e, hv1, ha⟩ := external_command_returns K O s s.verb w (h w.pos.clock).1
      exact ⟨v, w1, e, Or.inr hv1, ha⟩

theorem parse_command_returns (K : Consts) (O : Oracle) (c : command_t) :
    ∀ (level : Int) (w : Proc), well_formed c = true → 0 ≤ level →
      level + depth c ≤ 2147483647 → own_calls_succeed O w →
      ∃ v w1, parse_command K O c level w = .returned v w1 ∧ status_ok v ∧
        w1.pos.anc = w.pos.anc := by
  induction c with
  | NULL => intro level w hwf; simp [well_formed] at hwf
  | node op scmd cmd1 cmd2 ih1 ih2 =>
    intro level w hwf hl hd hs
    have hl0 : ¬ level < 0 := not_lt.mpr hl
    cases op with
    | OP_NONE =>
      cases scmd with
      | none => simp [well_formed] at hwf
      | some s =>
        simp only [well_formed, Bool.and_eq_true, bne_iff_ne, ne_eq] at hwf
        simp only [depth] at hd
        have hw := int32_succ level hl (by omega)
        simp only [parse_command, hl0, if_false, hw]
        exact parse_simple_returns K O s (level + 1) w (by omega) hwf hs
    | OP_OTHER tag => simp [well_formed] at hwf
    | OP_SEQUENTIAL =>
      simp only [well_formed, Bool.and_eq_true] at hwf
      simp only [depth] at hd
      have hw := int32_succ level hl (by omega)
      obtain ⟨r1, w1, e1, ok1, a1⟩ := ih1 (level + 1) w hwf.1 (by omega) (by omega) hs
      obtain ⟨r2, w2, e2, ok2, a2⟩ := ih2 (level + 1) w1 hwf.2 (by omega) (by omega)
        (own_calls_succeed_of_anc O w w1 hs a1)
      refine ⟨Int.lor r1 r2, w2, ?_, status_ok_lor r1 r2 ok1 ok2, a2.trans a1⟩
      simp only [parse_command, hl0, if_false, hw, e1, e2, Outcome.bind]
    | OP_PARALLEL =>
      simp only [parse_command, hl0, if_false]
      obtain ⟨v, w1, e, hv, ha⟩ := run_in_parallel_returns O (parse_command K O cmd1)
        (parse_command K O cmd2) (int32 (level + 1)) w (fun n => (hs n).1)
      exact ⟨v, w1, e, status_ok_bool v hv, ha⟩
    | OP_PIPE =>
      simp only [parse_command, hl0, if_false]
      obtain ⟨v, w1, e, hv, ha⟩ := run_on_pipe_returns O (parse_command K O cmd1)
        (parse_command K O cmd2) (int32 (level + 1)) w (fun n => (hs n).1)
        (hs w.pos.clock).2.1
      exact ⟨v, w1, e, status_ok_bool v hv, ha⟩
    | OP_CONDITIONAL_NZERO =>
      simp only [well_formed, Bool.and_eq_true] at hwf
      simp only [depth] at hd
      have hw := int32_succ level hl (by omega)
      obtain ⟨r1, w1, e1, ok1, a1⟩ := ih1 (level + 1) w hwf.1 (by omega) (by omega) hs
      obtain ⟨r2, w2, e2, ok2, a2⟩ := ih2 (level + 1) w1 hwf.2 (by omega) (by omega)
        (own_calls_succeed_of_anc O w w1 hs a1)
      simp only [parse_command, hl0, if_false, hw, e1, Outcome.bind]
      split_ifs
      · exact ⟨r2, w2, e2, ok2, a2.trans a1⟩
      · exact ⟨r1, w1, rfl, ok1, a1⟩
    | OP_CONDITIONAL_ZERO =>
      simp only [well_formed, Bool.and_eq_true] at hwf
      simp only [depth] at hd
      have hw := int32_succ level hl (by omega)
      obtain ⟨r1, w1, e1, ok1, a1⟩ := ih1 (level + 1) w hwf.1 (by omega) (by omega) hs
      obtain ⟨r2, w2, e2, ok2, a2⟩ := ih2 (level + 1) w1 hwf.2 (by omega) (by omega)
        (own_calls_succeed_of_anc O w w1 hs a1)
      simp only [parse_command, hl0, if_false, hw, e1, Outcome.bind]
      split_ifs
      · exact ⟨r2, w2, e2, ok2, a2.trans a1⟩
      · exact ⟨r1, w1, rfl, ok1, a1⟩

theorem ends_ok_bind {α β : Type} (o : Outcome α) (f : α → Proc → Outcome β)
    (h1 : ends_ok o) (h2 : ∀ v w, ends_ok (f v w)) : ends_ok (o.bind f) := by
  cases o with
  | returned v w => exact h2 v w
  | exited c w => exact h1
  | aborted w => exact h1

theorem ends_ok_dup_all (O : Oracle) (fd : Int) (ts : List Int) (w : Proc) :
    ends_ok (dup_all O fd ts w) := by
  induction ts generalizing w with
  | nil => trivial
  | cons t ts ih =>
    simp only [dup_all]
    split_ifs
    · rfl
    · exact ih _

theorem ends_ok_open_dup_bind (O : Oracle) (path : String) (flags : OpenFlags)
    (ts : List Int) (w : Proc) (g : Int → Fds) :
    ends_ok ((open_dup O path flags ts w).bind fun fd w1 => .returned (g fd) w1) := by
  apply ends_ok_bind
  · simp only [open_dup]
    split_ifs
    · rfl
    · exact ends_ok_dup_all _ _ _ _
  · intro v w1; trivial

theorem ends_ok_open_output (K : Consts) (O : Oracle) (s : simple_command_t)
    (f : Option String) (dups : List Int) (fds : Fds) (w : Proc) :
    ends_ok (open_output K O s f dups fds w) := by
  unfold open_output
  split
  · split_ifs
    · exact ends_ok_open_dup_bind _ _ _ _ _ _
    · exact ends_ok_open_dup_bind _ _ _ _ _ _
    · trivial
  · trivial

theorem ends_ok_open_error (K : Consts) (O : Oracle) (s : simple_command_t)
    (f : Option String) (dups : List Int) (fds : Fds) (w : Proc) :
    ends_ok (open_error K O s f dups fds w) := by
  unfold open_error
  split
  · split_ifs
    · exact ends_ok_open_dup_bind _ _ _ _ _ _
    · exact ends_ok_open_dup_bind _ _ _ _ _ _
    · trivial
  · trivial

theorem ends_ok_open_targets (K : Consts) (O : Oracle) (s : simple_command_t)
    (f g : Option String) (d1 d2 : List Int) (fds : Fds) (w : Proc) :
    ends_ok (open_targets K O s f g d1 d2 fds w) := by
  have sep : ends_ok ((open_output K O s f d1 fds w).bind fun fds w =>
      open_error K O s g d2 fds w) :=
    ends_ok_bind _ _ (ends_ok_open_output _ _ _ _ _ _ _)
      (fun v w1 => ends_ok_open_error _ _ _ _ _ _ _)
  unfold open_targets
  split
  · split_ifs
    · unfold open_same
      split_ifs
      · exact ends_ok_open_dup_bind _ _ _ _ _ _
      · trivial
    · exact sep
  · exact sep

theorem kept_close_if (c : Prop) [Decidable c] (fd : Int) (w0 w : Proc) (h : kept w0 w) :
    kept w0 (if c then sys_close fd w else w) := by
  split_ifs
  · exact kept_trans h (kept_close fd w)
  · exact h

theorem shell_cd_home_unset (O : Oracle) (w : Proc) (h : getenv w "HOME" = none) :
    shell_cd O none w = (1, w) := by
  simp only [shell_cd, h]
  rfl

theorem cd_wrapper_home_unset (K : Consts) (O : Oracle) (s : simple_command_t) (w : Proc)
    (hparams : s.params = none) (hhome : getenv w "HOME" = none) :
    ((∃ w1, cd_wrapper K O s w = .returned 1 w1) ∨
      (∃ w1, cd_wrapper K O s w = .exited (-1) w1)) ∧
    kept w (cd_wrapper K O s w).state ∧
    ((∀ n, (O.openFd ⟨w.pos.anc, n⟩).isSome) → ∃ w1, cd_wrapper K O s w = .returned 1 w1) := by
  have hk := kept_cd_open_files K O s w
  have he : ends_ok (cd_open_files K O s w) := ends_ok_open_targets _ _ _ _ _ _ _ _ _
  have tail : ∀ fds w1, cd_open_files K O s w = .returned fds w1 →
      cd_wrapper K O s w = .returned 1
        (if fds.fdOutErr ≠ -1 then sys_close fds.fdOutErr
          (if fds.fdErr ≠ -1 then sys_close fds.fdErr
            (if fds.fdOut ≠ -1 then sys_close fds.fdOut w1 else w1)
           else (if fds.fdOut ≠ -1 then sys_close fds.fdOut w1 else w1))
         else
          (if fds.fdErr ≠ -1 then sys_close fds.fdErr
            (if fds.fdOut ≠ -1 then sys_close fds.fdOut w1 else w1)
           else (if fds.fdOut ≠ -1 then sys_close fds.fdOut w1 else w1))) := by
    intro fds w1 hc
    have hk1 : kept w w1 := by rw [hc] at hk; exact hk
    have hh : getenv w1 "HOME" = none := by
      unfold getenv at hhome ⊢; rw [hk1.2.2.1]; exact hhome
    simp only [cd_wrapper, hc, Outcome.bind, hparams, shell_cd_home_unset O w1 hh]
    rfl
  cases hc : cd_open_files K O s w with
  | returned fds w1 =>
    have hk1 : kept w w1 := by rw [hc] at hk; exact hk
    have ht := tail fds w1 hc
    refine ⟨Or.inl ⟨_, ht⟩, ?_, fun _ => ⟨_, ht⟩⟩
    rw [ht]
    exact kept_close_if _ _ _ _ (kept_close_if _ _ _ _ (kept_close_if _ _ _ _ hk1))
  | exited c w1 =>
    rw [hc] at hk he
    have hc1 : c = -1 := he
    subst hc1
    have e : cd_wrapper K O s w = .exited (-1) w1 := by
      simp only [cd_wrapper, hc, Outcome.bind]
    refine ⟨Or.inr ⟨w1, e⟩, by rw [e]; exact hk, fun hopen => ?_⟩
    obtain ⟨fds, w2, h2⟩ := cd_open_files_returns K O s w hopen
    rw [hc] at h2; cases h2
  | aborted w1 =>
    rw [hc] at he; exact he.elim

theorem parse_command_cd (K : Consts) (O : Oracle) (s : simple_command_t)
    (cmd1 cmd2 : command_t) (level : Int) (w : Proc)
    (hlevel : 0 ≤ level ∧ level < 2147483647) (hcd : s.verb = "cd") :
    parse_command K O (.node .OP_NONE (some s) cmd1 cmd2) level w = cd_wrapper K O s w := by
  have hl0 : ¬ level < 0 := not_lt.mpr hlevel.1
  have hw := int32_succ level hlevel.1 hlevel.2
  have hl1 : ¬ level + 1 < 0 := by omega
  simp only [parse_command, hl0, if_false, hw, parse_simple, hl1, hcd, true_or, if_true,
    internal_command]

theorem parse_command_exit (K : Consts) (O : Oracle) (s : simple_command_t)
    (cmd1 cmd2 : command_t) (level : Int) (w : Proc)
    (hlevel : 0 ≤ level ∧ level < 2147483647) (hverb : s.verb = "exit" ∨ s.verb = "quit") :
    parse_command K O (.node .OP_NONE (some s) cmd1 cmd2) level w = shell_exit K w := by
  have hl0 : ¬ level < 0 := not_lt.mpr hlevel.1
  have hw := int32_succ level hlevel.1 hlevel.2
  have hl1 : ¬ level + 1 < 0 := by omega
  have hne : s.verb ≠ "cd" := by
    rcases hverb with h | h <;> rw [h] <;> decide
  simp only [parse_command, hl0, if_false, hw, parse_simple, hl1, hne, false_or, hverb,
    if_true, internal_command]

theorem parse_command_external (K : Consts) (O : Oracle) (s : simple_command_t)
    (cmd1 cmd2 : command_t) (level : Int) (w : Proc)
    (hlevel : 0 ≤ level ∧ level < 2147483647)
    (hverb : s.verb ≠ "cd" ∧ s.verb ≠ "exit" ∧ s.verb ≠ "quit" ∧ '=' ∉ s.verb.data) :
    parse_command K O (.node .OP_NONE (some s) cmd1 cmd2) level w =
      external_command K O s s.verb w := by
  obtain ⟨hcd, hexit, hquit, heq⟩ := hverb
  have hl0 : ¬ level < 0 := not_lt.mpr hlevel.1
  have hw := int32_succ level hlevel.1 hlevel.2
  have hl1 : ¬ level + 1 < 0 := by omega
  simp only [parse_command, hl0, if_false, parse_simple, hw, hl1, hcd, hexit, hquit,
    false_or, heq]

theorem parse_command_sequential (K : Consts) (O : Oracle) (scmd : Option simple_command_t)
    (cmd1 cmd2 : command_t) (level : Int) (w : Proc) (h : 0 ≤ level) :
    parse_command K O (.node .OP_SEQUENTIAL scmd cmd1 cmd2) level w =
      (parse_command K O cmd1 (int32 (level + 1)) w).bind fun r1 w1 =>
        (parse_command K O cmd2 (int32 (level + 1)) w1).bind fun r2 w2 =>
          .returned (Int.lor r1 r2) w2 := by
  have hl0 : ¬ level < 0 := not_lt.mpr h
  rw [parse_command]
  simp only [hl0, if_false]

theorem parse_command_conditional_nzero (K : Consts) (O : Oracle)
    (scmd : Option simple_command_t) (cmd1 cmd2 : command_t) (level : Int) (w : Proc)
    (h : 0 ≤ level) :
    parse_command K O (.node .OP_CONDITIONAL_NZERO scmd cmd1 cmd2) level w =
      (parse_command K O cmd1 (int32 (level + 1)) w).bind fun r1 w1 =>
        if r1 ≠ 0 then parse_command K O cmd2 (int32 (level + 1)) w1 else .returned r1 w1 := by
  have hl0 : ¬ level < 0 := not_lt.mpr h
  rw [parse_command]
  simp only [hl0, if_false]

theorem parse_command_conditional_zero (K : Consts) (O : Oracle)
    (scmd : Option simple_command_t) (cmd1 cmd2 : command_t) (level : Int) (w : Proc)
    (h : 0 ≤ level) :
    parse_command K O (.node .OP_CONDITIONAL_ZERO scmd cmd1 cmd2) level w =
      (parse_command K O cmd1 (int32 (level + 1)) w).bind fun r1 w1 =>
        if r1 = 0 then parse_command K O cmd2 (int32 (level + 1)) w1 else .returned r1 w1 := by
  have hl0 : ¬ level < 0 := not_lt.mpr h
  rw [parse_command]
  simp only [hl0, if_false]

theorem sample_true_returns_zero (K : Consts) (w : Proc) :
    (external_command K sample_os (plain "true") "true" w).result = some 0 := by
  have hc : (external_child K sample_os (plain "true") "true" w.child).1 = 0 := rfl
  have hs : child_status sample_os w.pos 0 = 0 := rfl
  have hf : sample_os.forkFails w.pos = false := rfl
  have he : WIFEXITED 0 = true := by decide
  simp only [external_command, hc, hs, hf, he, Bool.false_eq_true, if_false, if_true,
    Outcome.result]
  rfl

theorem lor_sample_sentinel : Int.lor (-100) 1 = -99 := by
  show Int.lor (Int.negSucc 99) (Int.ofNat 1) = _
  simp [Int.lor, Nat.ldiff, Nat.bitwise]

theorem redirect_ignores_error_target (K : Consts) (O : Oracle) (s : simple_command_t)
    (stdinFile : Option String) (o e : String) (fds : Fds) (w : Proc) (hne : o ≠ e)
    (h1 : s.io_flags ≠ K.IO_REGULAR) (h2 : s.io_flags ≠ K.IO_ERR_APPEND) :
    redirect K O s stdinFile (some o) (some e) fds w =
      redirect K O s stdinFile (some o) none fds w := by
  simp only [redirect, open_targets, hne, if_false, open_error, h1, h2]

theorem redirect_ignores_output_target (K : Consts) (O : Oracle) (s : simple_command_t)
    (stdinFile : Option String) (o e : String) (fds : Fds) (w : Proc) (hne : o ≠ e)
    (h1 : s.io_flags ≠ K.IO_REGULAR) (h2 : s.io_flags ≠ K.IO_OUT_APPEND) :
    redirect K O s stdinFile (some o) (some e) fds w =
      redirect K O s stdinFile none (some e) fds w := by
  simp only [redirect, open_targets, hne, if_false, open_output, h1, h2]

theorem external_command_value (K : Consts) (O : Oracle) (s : simple_command_t)
    (command : String) (w : Proc) (hfork : O.forkFails w.pos = false) :
    external_command K O s command w =
      .returned
        (if child_status O w.pos (external_child K O s command w.child).1 % 128 = 0 then
          ((child_status O w.pos (external_child K O s command w.child).1 / 256 % 256 : Nat)
            : Int)
         else 1)
        ((w.step (.fork false)).step
          (.waitpid (child_status O w.pos (external_child K O s command w.child).1))) := by
  simp only [external_command, hfork, Bool.false_eq_true, if_false, WIFEXITED, WEXITSTATUS,
    beq_iff_eq]
  split_ifs <;> rfl

/-! ## The claims -/

/-- C3, the code at the failing input.  A `Parallel` node whose left child
exits with 0 and whose right child exits with 4 returns 1, not `0 | 4 = 4`:
`run_in_parallel` computes the bitwise OR and returns it through its return
type `bool`.  In general a `Parallel` node evaluated with a non-negative level
returns only 0 or 1. -/
theorem C3_parallel_returns_bool :
    parse_command hdr sample_os
        (tree .OP_PARALLEL (leaf (plain "true")) (leaf (plain "four"))) 0 start =
      .returned 1 { start with
        pos := ⟨[], 4⟩
        trace := [.fork false, .fork false, .waitpid 1024, .waitpid 0] } ∧
    ∀ (K : Consts) (O : Oracle) (scmd : Option simple_command_t) (cmd1 cmd2 : command_t)
      (level : Int) (w : Proc) (v : Int) (w1 : Proc), 0 ≤ level →
      parse_command K O (.node .OP_PARALLEL scmd cmd1 cmd2) level w = .returned v w1 →
      v = 0 ∨ v = 1 := by
  refine ⟨by decide, ?_⟩
  intro K O scmd cmd1 cmd2 level w v w1 hl h
  have hl0 : ¬ level < 0 := not_lt.mpr hl
  rw [parse_command] at h
  simp only [hl0, if_false] at h
  exact run_in_parallel_bool _ _ _ _ _ _ _ h

/-- C4, the code at the failing input.  A `Pipe` node whose right-hand child
exits with 2 returns 1, not 2: `run_on_pipe` returns the exit status of the
right-hand child through its return type `bool`.  In general a `Pipe` node
evaluated with a non-negative level returns only 0 or 1. -/
theorem C4_pipe_returns_bool :
    parse_command hdr sample_os
        (tree .OP_PIPE (leaf (plain "true")) (leaf (plain "two"))) 0 start =
      .returned 1 { start with
        pos := ⟨[], 7⟩
        trace := [.pipe 0, .fork false, .fork false, .close 3, .close 4,
          .waitpid 0, .waitpid 512] } ∧
    ∀ (K : Consts) (O : Oracle) (scmd : Option simple_command_t) (cmd1 cmd2 : command_t)
      (level : Int) (w : Proc) (v : Int) (w1 : Proc), 0 ≤ level →
      parse_command K O (.node .OP_PIPE scmd cmd1 cmd2) level w = .returned v w1 →
      v = 0 ∨ v = 1 := by
  refine ⟨by decide, ?_⟩
  intro K O scmd cmd1 cmd2 level w v w1 hl h
  have hl0 : ¬ level < 0 := not_lt.mpr hl
  rw [parse_command] at h
  simp only [hl0, if_false] at h
  exact run_on_pipe_bool _ _ _ _ _ _ _ h

/-- C5, as amended.  A simple command named `exit` or `quit`, evaluated at a
level in `0 .. INT_MAX - 1`, ends as `shell_exit` does and returns the
sentinel.  An enclosing node treats the sentinel (assumed nonzero) as an
ordinary status.  When the left child returned it: a `ConditionalIfZero` node
returns it without evaluating the right child, a `ConditionalIfNonzero` node
goes on to evaluate the right child and ends as that child does, a `Sequential`
node evaluates the right child and returns the bitwise OR of the sentinel and
its result.  A conditional node whose right child is evaluated ends as that
child does, and a `Sequential` node whose right child returned the sentinel
returns the OR of the left result and the sentinel.  A `Parallel` or `Pipe`
node returns a value in `0 .. 255`. -/
theorem C5_sentinel_as_status (K : Consts) (O : Oracle) (s : simple_command_t)
    (scmd : Option simple_command_t) (cmd1 cmd2 : command_t) (level : Int) (w w1 : Proc)
    (hlevel : 0 ≤ level ∧ level < 2147483647) (hverb : s.verb = "exit" ∨ s.verb = "quit")
    (hS : K.SHELL_EXIT ≠ 0) :
    (parse_command K O (.node .OP_NONE (some s) cmd1 cmd2) level w = shell_exit K w ∧
      (shell_exit K w).result = some K.SHELL_EXIT) ∧
    (parse_command K O cmd1 (int32 (level + 1)) w = .returned K.SHELL_EXIT w1 →
      parse_command K O (.node .OP_CONDITIONAL_ZERO scmd cmd1 cmd2) level w =
        .returned K.SHELL_EXIT w1 ∧
      parse_command K O (.node .OP_CONDITIONAL_NZERO scmd cmd1 cmd2) level w =
        parse_command K O cmd2 (int32 (level + 1)) w1 ∧
      parse_command K O (.node .OP_SEQUENTIAL scmd cmd1 cmd2) level w =
        (parse_command K O cmd2 (int32 (level + 1)) w1).bind
          (fun r2 w2 => .returned (Int.lor K.SHELL_EXIT r2) w2)) ∧
    (∀ r1, parse_command K O cmd1 (int32 (level + 1)) w = .returned r1 w1 →
      (r1 = 0 →
        parse_command K O (.node .OP_CONDITIONAL_ZERO scmd cmd1 cmd2) level w =
          parse_command K O cmd2 (int32 (level + 1)) w1) ∧
      (r1 ≠ 0 →
        parse_command K O (.node .OP_CONDITIONAL_NZERO scmd cmd1 cmd2) level w =
          parse_command K O cmd2 (int32 (level + 1)) w1) ∧
      (∀ w2, parse_command K O cmd2 (int32 (level + 1)) w1 = .returned K.SHELL_EXIT w2 →
        parse_command K O (.node .OP_SEQUENTIAL scmd cmd1 cmd2) level w =
          .returned (Int.lor r1 K.SHELL_EXIT) w2)) ∧
    (∀ v w2, parse_command K O (.node .OP_PARALLEL scmd cmd1 cmd2) level w = .returned v w2 →
      0 ≤ v ∧ v ≤ 255) ∧
    (∀ v w2, parse_command K O (.node .OP_PIPE scmd cmd1 cmd2) level w = .returned v w2 →
      0 ≤ v ∧ v ≤ 255) := by
  have hl0 : ¬ level < 0 := not_lt.mpr hlevel.1
  have hz := parse_command_conditional_zero K O scmd cmd1 cmd2 level w hlevel.1
  have hn := parse_command_conditional_nzero K O scmd cmd1 cmd2 level w hlevel.1
  have hq := parse_command_sequential K O scmd cmd1 cmd2 level w hlevel.1
  refine ⟨⟨parse_command_exit K O s cmd1 cmd2 level w hlevel hverb, rfl⟩, ?_, ?_, ?_, ?_⟩
  · intro h1
    rw [hz, hn, hq, h1]
    simp only [Outcome.bind, hS, ne_eq, not_false_eq_true, if_true, if_false, and_self]
  · intro r1 h1
    rw [hz, hn, hq, h1]
    refine ⟨fun hr => ?_, fun hr => ?_, fun w2 h2 => ?_⟩
    · simp only [Outcome.bind, hr, if_true]
    · simp only [Outcome.bind, hr, ne_eq, not_false_eq_true, if_true]
    · simp only [Outcome.bind, h2]
  · intro v w2 h
    rw [parse_command] at h
    simp only [hl0, if_false] at h
    rcases run_in_parallel_bool _ _ _ _ _ _ _ h with rfl | rfl <;> decide
  · intro v w2 h
    rw [parse_command] at h
    simp only [hl0, if_false] at h
    rcases run_on_pipe_bool _ _ _ _ _ _ _ h with rfl | rfl <;> decide

/-- C5 as amended, at a concrete input: `exit` alone returns the sentinel; with
`exit` as left child and the program `false` as right child, the
`ConditionalIfZero` node returns the sentinel, the `ConditionalIfNonzero` node
ends as `false` does, and the `Sequential` node returns the OR of the sentinel
with the result of `false`. -/
theorem C5_sentinel_as_status_witness :
    (parse_command hdr sample_os
        (.node .OP_NONE (some (plain "exit")) (leaf (plain "exit")) (leaf (plain "false")))
        0 start = shell_exit hdr start ∧
      (shell_exit hdr start).result = some hdr.SHELL_EXIT) ∧
    parse_command hdr sample_os
        (.node .OP_CONDITIONAL_ZERO none (leaf (plain "exit")) (leaf (plain "false"))) 0 start =
      .returned hdr.SHELL_EXIT (shell_exit hdr start).state ∧
    parse_command hdr sample_os
        (.node .OP_CONDITIONAL_NZERO none (leaf (plain "exit")) (leaf (plain "false"))) 0 start =
      parse_command hdr sample_os (leaf (plain "false")) (int32 (0 + 1))
        (shell_exit hdr start).state ∧
    parse_command hdr sample_os
        (.node .OP_SEQUENTIAL none (leaf (plain "exit")) (leaf (plain "false"))) 0 start =
      (parse_command hdr sample_os (leaf (plain "false")) (int32 (0 + 1))
        (shell_exit hdr start).state).bind
        (fun r2 w2 => .returned (Int.lor hdr.SHELL_EXIT r2) w2) :=
  have h := C5_sentinel_as_status hdr sample_os (plain "exit") none (leaf (plain "exit"))
    (leaf (plain "false")) 0 start (shell_exit hdr start).state
    (by decide) (by decide) (by decide)
  ⟨h.1, h.2.1 (by decide)⟩

/-- C5, counterexample.  The sentinel does not reach the root: for every
nonzero value of `SHELL_EXIT`, `exit || true` (a `ConditionalIfNonzero` node
with `exit` as left child) evaluates `exit` and returns 0, the status of `true`;
with the sample value -100, `exit ; false` returns `-100 | 1 = -99`, and `exit`
in a branch of a `Parallel` node makes the node return 1. -/
theorem C5_sentinel_lost :
    (∀ K : Consts, K.SHELL_EXIT ≠ 0 →
      (parse_command K sample_os
        (tree .OP_CONDITIONAL_NZERO (leaf (plain "exit")) (leaf (plain "true"))) 0
        start).result = some 0) ∧
    hdr.SHELL_EXIT = -100 ∧
    (parse_command hdr sample_os
      (tree .OP_SEQUENTIAL (leaf (plain "exit")) (leaf (plain "false"))) 0 start).result =
        some (-99) ∧
    (parse_command hdr sample_os
      (tree .OP_PARALLEL (leaf (plain "exit")) (leaf (plain "true"))) 0 start).result =
        some 1 := by
  have hone : int32 (0 + 1) = 1 := by decide
  have h1 : ∀ K : Consts,
      parse_command K sample_os (leaf (plain "exit")) (int32 (0 + 1)) start =
      .returned K.SHELL_EXIT
        (sys_close VALGRIND (sys_close ERR (sys_close WRITE (sys_close READ start)))) := by
    intro K
    rw [hone]
    exact parse_command_exit K sample_os (plain "exit") .NULL .NULL 1 start (by decide)
      (Or.inl rfl)
  have h3 : ∀ (K : Consts) (verb : String) (w : Proc),
      (verb ≠ "cd" ∧ verb ≠ "exit" ∧ verb ≠ "quit" ∧ '=' ∉ verb.data) →
      parse_command K sample_os (leaf (plain verb)) (int32 (0 + 1)) w =
        external_command K sample_os (plain verb) verb w := by
    intro K verb w hv
    rw [hone]
    exact parse_command_external K sample_os (plain verb) .NULL .NULL 1 w (by decide) hv
  refine ⟨fun K hK => ?_, by decide, ?_, by decide⟩
  · rw [show tree .OP_CONDITIONAL_NZERO (leaf (plain "exit")) (leaf (plain "true")) =
        .node .OP_CONDITIONAL_NZERO none (leaf (plain "exit")) (leaf (plain "true")) from rfl,
      parse_command_conditional_nzero _ _ _ _ _ _ _ (by decide), h1 K]
    simp only [Outcome.bind, hK, ne_eq, not_false_eq_true, if_true]
    rw [h3 K "true" _ (by decide)]
    exact sample_true_returns_zero K _
  · rw [show tree .OP_SEQUENTIAL (leaf (plain "exit")) (leaf (plain "false")) =
        .node .OP_SEQUENTIAL none (leaf (plain "exit")) (leaf (plain "false")) from rfl,
      parse_command_sequential _ _ _ _ _ _ _ (by decide), h1 hdr]
    simp only [Outcome.bind]
    rw [h3 hdr "false" _ (by decide)]
    show some (Int.lor (-100) 1) = some (-99)
    rw [lor_sample_sentinel]

/-- C6, the code at the failing input.  `cd /nowhere` with a failing `chdir`
returns 1 and writes nothing, with and without an error redirection (the
target of the redirection is opened and closed): `shell_cd` returns through
`bool`, so `retVal` is 0 or 1 and the test `retVal == -1` that guards the
error line never holds.  In general `cd_wrapper` makes no write at all. -/
theorem C6_cd_failure_writes_nothing :
    cd_wrapper hdr no_chdir_os { plain "cd" with params := some "/nowhere" } start =
      .returned 1 { start with pos := ⟨[], 1⟩, trace := [.chdir "/nowhere" (-1)] } ∧
    cd_wrapper hdr no_chdir_os
        { plain "cd" with params := some "/nowhere", err := some "log" } start =
      .returned 1 { start with
        pos := ⟨[], 3⟩
        trace := [.opened "log" .O_TRUNC 5, .chdir "/nowhere" (-1), .close 5] } ∧
    ∀ (K : Consts) (O : Oracle) (s : simple_command_t) (w : Proc),
      write_calls (cd_wrapper K O s w).state.trace = write_calls w.trace :=
  ⟨by decide, by decide, cd_wrapper_no_write⟩

/-- C7, as amended.  A `cd` command without target word, evaluated at a level
in `0 .. INT_MAX - 1` when `HOME` is unset: `parse_command` returns 1, or the
shell calls `exit(-1)` because a redirection target could not be opened; in
both cases the working directory is unchanged and no `chdir` call was made;
and `parse_command` does return 1 when no `open` of the shell fails. -/
theorem C7_cd_without_home (K : Consts) (O : Oracle) (s : simple_command_t)
    (cmd1 cmd2 : command_t) (level : Int) (w : Proc)
    (hlevel : 0 ≤ level ∧ level < 2147483647) (hcd : s.verb = "cd")
    (hparams : s.params = none) (hhome : getenv w "HOME" = none) :
    ((∃ w1, parse_command K O (.node .OP_NONE (some s) cmd1 cmd2) level w = .returned 1 w1) ∨
      (∃ w1, parse_command K O (.node .OP_NONE (some s) cmd1 cmd2) level w =
        .exited (-1) w1)) ∧
    (parse_command K O (.node .OP_NONE (some s) cmd1 cmd2) level w).state.cwd = w.cwd ∧
    chdir_calls (parse_command K O (.node .OP_NONE (some s) cmd1 cmd2) level w).state.trace =
      chdir_calls w.trace ∧
    ((∀ n, (O.openFd ⟨w.pos.anc, n⟩).isSome) →
      ∃ w1, parse_command K O (.node .OP_NONE (some s) cmd1 cmd2) level w =
        .returned 1 w1) := by
  rw [parse_command_cd K O s cmd1 cmd2 level w hlevel hcd]
  obtain ⟨h1, h2, h3⟩ := cd_wrapper_home_unset K O s w hparams hhome
  exact ⟨h1, h2.2.1, h2.2.2.2.1, h3⟩

/-- C7 as amended, at a concrete input: `cd` alone in a shell without `HOME`. -/
theorem C7_cd_without_home_witness :
    ((∃ w1, parse_command hdr sample_os (leaf (plain "cd")) 0 start = .returned 1 w1) ∨
      (∃ w1, parse_command hdr sample_os (leaf (plain "cd")) 0 start = .exited (-1) w1)) ∧
    (parse_command hdr sample_os (leaf (plain "cd")) 0 start).state.cwd = start.cwd ∧
    chdir_calls (parse_command hdr sample_os (leaf (plain "cd")) 0 start).state.trace =
      chdir_calls start.trace ∧
    ((∀ n, (sample_os.openFd ⟨start.pos.anc, n⟩).isSome) →
      ∃ w1, parse_command hdr sample_os (leaf (plain "cd")) 0 start = .returned 1 w1) :=
  C7_cd_without_home hdr sample_os (plain "cd") .NULL .NULL 0 start (by decide) (by decide)
    (by decide) (by decide)

/-- C7, counterexample.  `cd` without target word in a shell whose environment
has no `HOME`: `parse_command` returns 1, not 0, and leaves the state of the
shell as it was. -/
theorem C7_cd_without_home_returns_one :
    getenv start "HOME" = none ∧ (plain "cd").params = none ∧
    parse_command hdr sample_os (leaf (plain "cd")) 0 start = .returned 1 start := by
  decide

/-- C8, the code at the failing input.  With the distinct targets `out` and
`err`: when `io_flags` is `IO_OUT_APPEND`, `redirect` opens `out` in append
mode and rebinds standard output, and neither opens `err` nor rebinds standard
error; when `io_flags` is `IO_ERR_APPEND` it is `out` that is skipped.  In
general, for distinct targets, an `io_flags` that is neither `IO_REGULAR` nor
`IO_ERR_APPEND` makes `redirect` behave as if there were no error target, and
one that is neither `IO_REGULAR` nor `IO_OUT_APPEND` as if there were no output
target. -/
theorem C8_append_skips_other_target :
    redirect hdr sample_os { plain "ls" with io_flags := hdr.IO_OUT_APPEND }
        none (some "out") (some "err") Fds.unset start =
      .returned { Fds.unset with fdOut := 5 }
        { start with pos := ⟨[], 2⟩, trace := [.opened "out" .O_APPEND 5, .dup2 5 WRITE WRITE] } ∧
    redirect hdr sample_os { plain "ls" with io_flags := hdr.IO_ERR_APPEND }
        none (some "out") (some "err") Fds.unset start =
      .returned { Fds.unset with fdErr := 5 }
        { start with pos := ⟨[], 2⟩, trace := [.opened "err" .O_APPEND 5, .dup2 5 ERR ERR] } ∧
    (∀ (K : Consts) (O : Oracle) (s : simple_command_t) (stdinFile : Option String)
      (o e : String) (fds : Fds) (w : Proc), o ≠ e →
      s.io_flags ≠ K.IO_REGULAR → s.io_flags ≠ K.IO_ERR_APPEND →
      redirect K O s stdinFile (some o) (some e) fds w =
        redirect K O s stdinFile (some o) none fds w) ∧
    (∀ (K : Consts) (O : Oracle) (s : simple_command_t) (stdinFile : Option String)
      (o e : String) (fds : Fds) (w : Proc), o ≠ e →
      s.io_flags ≠ K.IO_REGULAR → s.io_flags ≠ K.IO_OUT_APPEND →
      redirect K O s stdinFile (some o) (some e) fds w =
        redirect K O s stdinFile none (some e) fds w) :=
  ⟨by decide, by decide, redirect_ignores_error_target, redirect_ignores_output_target⟩

/-- C9. A simple command that is neither `cd`, `exit`, `quit` nor an
assignment, evaluated by `parse_command` at a level in `0 .. INT_MAX - 1` when
`fork` succeeds.  With `status` the raw status that `waitpid` stores for the
child, `parse_command` returns the exit-status byte `(status / 256) % 256` when
the child exited (`status % 128 = 0`) and `1` when it did not; nothing is
converted on the way up.  The status is that of the child: a program that ends
with `exit(c)`, `c` in `0 .. 255`, makes `parse_command` return exactly `c`; a
child that calls `exit(code)` because a redirection failed makes it return the
low eight bits of `code`; a child ended by a signal, or by `abort` after a
failed `execvpe`, makes it return `1`. -/
theorem C9_external_exit_code (K : Consts) (O : Oracle) (s : simple_command_t)
    (cmd1 cmd2 : command_t) (level : Int) (w : Proc)
    (hlevel : 0 ≤ level ∧ level < 2147483647)
    (hverb : s.verb ≠ "cd" ∧ s.verb ≠ "exit" ∧ s.verb ≠ "quit" ∧ '=' ∉ s.verb.data)
    (hfork : O.forkFails w.pos = false) :
    ∃ status : Nat,
      status = child_status O w.pos (external_child K O s s.verb w.child).1 ∧
      parse_command K O (.node .OP_NONE (some s) cmd1 cmd2) level w =
        .returned (if WIFEXITED status then WEXITSTATUS status else 1)
          ((w.step (.fork false)).step (.waitpid status)) ∧
      0 ≤ WEXITSTATUS status ∧ WEXITSTATUS status ≤ 255 ∧
      parse_command K O (.node .OP_NONE (some s) cmd1 cmd2) level w =
        .returned (if status % 128 = 0 then ((status / 256 % 256 : Nat) : Int) else 1)
          ((w.step (.fork false)).step (.waitpid status)) ∧
      (status % 128 = 0 →
        (parse_command K O (.node .OP_NONE (some s) cmd1 cmd2) level w).result =
          some ((status / 256 % 256 : Nat) : Int)) ∧
      (status % 128 ≠ 0 →
        (parse_command K O (.node .OP_NONE (some s) cmd1 cmd2) level w).result = some 1) ∧
      (∀ sig : Nat, 0 < sig → sig < 128 → O.killed w.pos = some sig →
        status = sig ∧
        (parse_command K O (.node .OP_NONE (some s) cmd1 cmd2) level w).result = some 1) ∧
      (O.killed w.pos = none →
        (∀ fds w1 (c : Nat), c ≤ 255 →
          redirect K O s s.in_ s.out s.err Fds.unset w.child = .returned fds w1 →
          O.execStatus w1.pos s.verb = some (c * 256) →
          status = c * 256 ∧
          (parse_command K O (.node .OP_NONE (some s) cmd1 cmd2) level w).result =
            some (c : Int)) ∧
        (∀ fds w1,
          redirect K O s s.in_ s.out s.err Fds.unset w.child = .returned fds w1 →
          O.execStatus w1.pos s.verb = none →
          status = 6 ∧
          (parse_command K O (.node .OP_NONE (some s) cmd1 cmd2) level w).result = some 1) ∧
        (∀ code w1,
          redirect K O s s.in_ s.out s.err Fds.unset w.child = .exited code w1 →
          (parse_command K O (.node .OP_NONE (some s) cmd1 cmd2) level w).result =
            some (code % 256))) := by
  have hp := parse_command_external K O s cmd1 cmd2 level w hlevel hverb
  have hval := external_command_value K O s s.verb w hfork
  rw [← hp] at hval
  have hex : ∀ st : Nat, st % 128 = 0 →
      child_status O w.pos (external_child K O s s.verb w.child).1 = st →
      (parse_command K O (.node .OP_NONE (some s) cmd1 cmd2) level w).result =
        some ((st / 256 % 256 : Nat) : Int) := by
    intro st h0 hst
    rw [hval, hst]
    simp only [h0, if_true, Outcome.result]
  have hno : ∀ st : Nat, st % 128 ≠ 0 →
      child_status O w.pos (external_child K O s s.verb w.child).1 = st →
      (parse_command K O (.node .OP_NONE (some s) cmd1 cmd2) level w).result = some 1 := by
    intro st h0 hst
    rw [hval, hst]
    simp only [h0, if_false, Outcome.result]
  refine ⟨_, rfl, ?_, ?_, ?_, hval, fun h => hex _ h rfl, fun h => hno _ h rfl, ?_, ?_⟩
  · rw [hp]
    simp only [external_command, hfork, Bool.false_eq_true, if_false]
    split_ifs <;> rfl
  · unfold WEXITSTATUS; omega
  · unfold WEXITSTATUS; omega
  · intro sig h0 h1 hk
    have hst : child_status O w.pos (external_child K O s s.verb w.child).1 = sig := by
      simp only [child_status, hk]
    exact ⟨hst, hno sig (by omega) hst⟩
  · intro hk
    refine ⟨fun fds w1 c hc hr he => ?_, fun fds w1 hr he => ?_, fun code w1 hr => ?_⟩
    · have hst : child_status O w.pos (external_child K O s s.verb w.child).1 = c * 256 := by
        simp only [child_status, hk, external_child, hr, he]
      refine ⟨hst, ?_⟩
      have := hex (c * 256) (by omega) hst
      rw [this]
      congr 2
      omega
    · have hst : child_status O w.pos (external_child K O s s.verb w.child).1 = 6 := by
        simp only [child_status, hk, external_child, hr, he, W_ABORTED]
      exact ⟨hst, hno 6 (by decide) hst⟩
    · have hst : child_status O w.pos (external_child K O s s.verb w.child).1 =
          (code % 256).toNat * 256 := by
        simp only [child_status, hk, external_child, hr, W_EXITCODE]
      have := hex ((code % 256).toNat * 256) (by omega) hst
      rw [this]
      congr 1
      omega

/-- C9, at concrete inputs: the program that exits with 4 makes `parse_command`
return 4 (after one `fork` and one `waitpid` that stored the status 1024); the
same program ended by signal 9 makes it return 1; a program that cannot be
executed makes it return 1. -/
theorem C9_external_exit_code_witness :
    parse_command hdr sample_os (leaf (plain "four")) 0 start =
      .returned 4 { start with pos := ⟨[], 2⟩, trace := [.fork false, .waitpid 1024] } ∧
    (parse_command hdr sample_os (leaf (plain "four")) 0 start).result = some 4 ∧
    (parse_command hdr killing_os (leaf (plain "four")) 0 start).result = some 1 ∧
    (parse_command hdr sample_os (leaf (plain "nosuch")) 0 start).result = some 1 := by
  obtain ⟨st, _, _, _, _, heq, _, _, _, hrun⟩ :=
    C9_external_exit_code hdr sample_os (plain "four") .NULL .NULL 0 start
      (by decide) (by decide) (by decide)
  obtain ⟨hst, hres⟩ := (hrun rfl).1 Fds.unset start.child 4 (by decide) (by decide) (by decide)
  obtain ⟨_, _, _, _, _, _, _, _, hkill, _⟩ :=
    C9_external_exit_code hdr killing_os (plain "four") .NULL .NULL 0 start
      (by decide) (by decide) (by decide)
  obtain ⟨_, _, _, _, _, _, _, _, _, hrun2⟩ :=
    C9_external_exit_code hdr sample_os (plain "nosuch") .NULL .NULL 0 start
      (by decide) (by decide) (by decide)
  refine ⟨?_, hres, (hkill 9 (by decide) (by decide) rfl).2,
    ((hrun2 rfl).2.1 Fds.unset start.child (by decide) (by decide)).2⟩
  refine heq.trans ?_
  rw [hst]
  rfl

/-- C10, as amended.  For a well-formed tree (no absent node, no absent simple
command, only the six known node kinds, no command named `exit` or `quit`), a
level with `0 ≤ level` and `level + depth ≤ INT_MAX`, and an operating system
in which no `fork`, `pipe` or `open` call of the shell process itself fails,
`parse_command` returns, for every outcome of the child processes, of `chdir`
and of `setenv`, and its result is `-1` or in `0 .. 255`; so the result is not
the sentinel when the sentinel lies outside that set. -/
theorem C10_status_range (K : Consts) (O : Oracle) (c : command_t) (level : Int) (w : Proc)
    (hwf : well_formed c = true) (hlevel : 0 ≤ level ∧ level + depth c ≤ 2147483647)
    (hsys : own_calls_succeed O w) :
    ∃ v w1, parse_command K O c level w = .returned v w1 ∧
      (v = -1 ∨ (0 ≤ v ∧ v ≤ 255)) ∧
      ((K.SHELL_EXIT < -1 ∨ 255 < K.SHELL_EXIT) → v ≠ K.SHELL_EXIT) := by
  obtain ⟨v, w1, e, ok, _⟩ := parse_command_returns K O c level w hwf hlevel.1 hlevel.2 hsys
  refine ⟨v, w1, e, ok, fun hS hv => ?_⟩
  unfold status_ok at ok
  omega

/-- C10 as amended, at a concrete input: `cd 2> log ; (two || A=b)`. -/
theorem C10_status_range_witness :
    ∃ v w1, parse_command hdr sample_os
        (tree .OP_SEQUENTIAL (leaf { plain "cd" with err := some "log" })
          (tree .OP_CONDITIONAL_NZERO (leaf (plain "two")) (leaf (plain "A=b")))) 0 start =
        .returned v w1 ∧
      (v = -1 ∨ (0 ≤ v ∧ v ≤ 255)) ∧
      ((hdr.SHELL_EXIT < -1 ∨ 255 < hdr.SHELL_EXIT) → v ≠ hdr.SHELL_EXIT) :=
  C10_status_range hdr sample_os
    (tree .OP_SEQUENTIAL (leaf { plain "cd" with err := some "log" })
      (tree .OP_CONDITIONAL_NZERO (leaf (plain "two")) (leaf (plain "A=b")))) 0 start
    (by decide) (by decide) (fun _ => ⟨rfl, rfl, rfl⟩)

/-- C10, counterexample.  The tree of the one command `cd > f` is well formed,
has no `exit` or `quit`, and no `fork` or `pipe` call fails; when `open` fails,
`cd_wrapper` calls `exit(-1)` and `parse_command` yields no result at all. -/
theorem C10_cd_open_failure_exits :
    well_formed (leaf { plain "cd" with out := some "f" }) = true ∧
    (0 : Int) + depth (leaf { plain "cd" with out := some "f" }) ≤ 2147483647 ∧
    (∀ p, no_open_os.forkFails p = false ∧ (no_open_os.pipeFds p).isSome) ∧
    parse_command hdr no_open_os (leaf { plain "cd" with out := some "f" }) 0 start =
      .exited (-1) { start with
        pos := ⟨[], 2⟩
        trace := [.opened "f" .O_TRUNC (-1), .close (-1)] } ∧
    (parse_command hdr no_open_os (leaf { plain "cd" with out := some "f" }) 0 start).result =
      none :=
  ⟨by decide, by decide, fun _ => ⟨rfl, rfl⟩, by decide, by decide⟩

end MiniShell
